import Mathlib

/-!
Verification development for the Zerodha login-automation scripts.

The repository has two login drivers, `zerodha_api_login.py` (the OAuth
variant, suffix `_oauth` below) and `kite_dashboard_login.py` (the
dashboard variant, suffix `_dash`), plus `token_manager.py` and
`notify.py`.  The shallow embedding below translates the pure decision
logic of those scripts into Lean:

* a page is the collection of element handles the Selenium selector
  queries would return, each handle carrying the observable flags the
  scripts test (`is_displayed`, `is_enabled`) together with flags saying
  whether an interaction (`send_keys`, `clear`, `execute_script`,
  `click`) would raise for that handle;
* wall-clock polling loops (`while time.time() < end`) become structural
  recursion on a fuel argument counting poll iterations, with the
  polled environment given as a function of the iteration index;
* Python exceptions become `Except` results; a `try/except` that
  swallows an exception becomes the corresponding branch of the Lean
  definition; an exception that escapes a function is an `Except.error`;
* side effects the claims talk about (screenshots, notification mails,
  token-store writes) are recorded as an event trace returned next to
  the boolean outcome.
-/

namespace Zerodha

/-- An `<input>` element handle with the attributes and observable state
the two `find_otp_fields` implementations query, plus flags recording
whether the individual Selenium interactions on this handle would raise. -/
structure Input where
  maxlength1 : Bool
  inputmodeNumeric : Bool
  classOtp : Bool
  classDigit : Bool
  typeTel : Bool
  typeNumber : Bool
  typePassword : Bool
  visible : Bool
  enabled : Bool
  sendRaises : Bool
  clearRaises : Bool
  scriptRaises : Bool
  tag : Nat
deriving DecidableEq, Repr

/-- A page as seen by the locators: the results of the two `By.ID`
queries (`totp`, `pin`) and the set of `<input>` elements the XPath
queries range over, in DOM order. -/
structure Page where
  idTotp : List Input
  idPin : List Input
  inputs : List Input
deriving Repr

/-- `el.is_displayed() and el.is_enabled()`. -/
def visEn (e : Input) : Bool := e.visible && e.enabled

/-- XPath of the split-box strategy in both scripts:
`//input[@maxlength=1 and (@inputmode=numeric or contains(@class,otp) or contains(@class,digit))]`. -/
def splitSel (e : Input) : Bool :=
  e.maxlength1 && (e.inputmodeNumeric || e.classOtp || e.classDigit)

/-- XPath of the final fallback in `zerodha_api_login.find_otp_fields`:
`//input[@inputmode=numeric or @type=tel or @type=number or @type=password]`. -/
def fallbackSel_oauth (e : Input) : Bool :=
  e.inputmodeNumeric || e.typeTel || e.typeNumber || e.typePassword

/-- XPath of the numeric strategy in `kite_dashboard_login.find_otp_fields`:
`//input[@inputmode=numeric or @type=tel or @type=number]`. -/
def numericSel_dash (e : Input) : Bool :=
  e.inputmodeNumeric || e.typeTel || e.typeNumber

/-- Split-box and fallback strategies of one polling iteration of
`zerodha_api_login.find_otp_fields` (lines 150-166): at least two
displayed-and-enabled split boxes, else any displayed-and-enabled
numeric-or-password input. -/
def findPassRest_oauth (p : Page) : Option (List Input) :=
  if 2 ≤ ((p.inputs.filter splitSel).filter visEn).length then
    some ((p.inputs.filter splitSel).filter visEn)
  else if ((p.inputs.filter fallbackSel_oauth).filter visEn).isEmpty then none
  else some ((p.inputs.filter fallbackSel_oauth).filter visEn)

/-- The `pin` id strategy of `zerodha_api_login.find_otp_fields` (lines
141-148), falling through to the XPath strategies. -/
def findPassPin_oauth (p : Page) : Option (List Input) :=
  match p.idPin with
  | el :: _ => if visEn el then some [el] else findPassRest_oauth p
  | [] => findPassRest_oauth p

/-- One iteration of the polling loop in
`zerodha_api_login.find_otp_fields` (lines 130-168): totp id, pin id,
split boxes, then the numeric-or-password fallback.  The id strategies
inspect only the first returned element and require it displayed and
enabled; the XPath strategies filter to displayed-and-enabled elements. -/
def findPass_oauth (p : Page) : Option (List Input) :=
  match p.idTotp with
  | el :: _ => if visEn el then some [el] else findPassPin_oauth p
  | [] => findPassPin_oauth p

/-- `zerodha_api_login.find_otp_fields` (lines 124-169): repeat
`findPass_oauth` against the live page until a strategy matches or the
timeout (modelled as `fuel` poll iterations) elapses; `none` stands for
the empty list returned on timeout.  `pages t` is the page at poll
iteration `t`. -/
def find_otp_fields_oauth (pages : Nat → Page) : Nat → Nat → Option (List Input)
  | 0, _ => none
  | fuel + 1, t =>
    match findPass_oauth (pages t) with
    | some r => some r
    | none => find_otp_fields_oauth pages fuel (t + 1)

/-- One iteration of the polling loop in
`kite_dashboard_login.find_otp_fields` (lines 119-151).  The totp and
pin id strategies return the raw element list with NO visibility or
enabled filtering; split boxes and numeric inputs are filtered to
displayed-and-enabled; the password fallback is filtered only by
`is_displayed`. -/
def findPass_dash (p : Page) : Option (List Input) :=
  if !p.idTotp.isEmpty then some p.idTotp
  else if !p.idPin.isEmpty then some p.idPin
  else if 2 ≤ ((p.inputs.filter splitSel).filter visEn).length then
    some ((p.inputs.filter splitSel).filter visEn)
  else if 2 ≤ ((p.inputs.filter numericSel_dash).filter visEn).length then
    some ((p.inputs.filter numericSel_dash).filter visEn)
  else if ((p.inputs.filter numericSel_dash).filter visEn).length = 1 then
    some ((p.inputs.filter numericSel_dash).filter visEn)
  else if 1 ≤ ((p.inputs.filter (·.typePassword)).filter (·.visible)).length then
    some ((p.inputs.filter (·.typePassword)).filter (·.visible))
  else none

/-- `kite_dashboard_login.find_otp_fields` (lines 116-153), with the
timeout modelled as `fuel` poll iterations; `none` stands for the empty
list returned on timeout. -/
def find_otp_fields_dash (pages : Nat → Page) : Nat → Nat → Option (List Input)
  | 0, _ => none
  | fuel + 1, t =>
    match findPass_dash (pages t) with
    | some r => some r
    | none => find_otp_fields_dash pages fuel (t + 1)

/-- The `for i, ch in enumerate(otp)` loop shared by the split-box
branch of `zerodha_api_login.enter_otp` (lines 198-216): the loop breaks
(returning `True`) once either the OTP or the field list is exhausted;
`focus`/`clear`/`click` are each wrapped in a swallowing `try`, while
`fld.send_keys(ch)` is unguarded, so a raising send aborts with the
outer handler returning `False`.  The second component records, in
order, each `(tag, text)` pair delivered by a `send_keys` call. -/
def otpLoop_oauth : List Char → List Input → Bool × List (Nat × String)
  | [], _ => (true, [])
  | _ :: _, [] => (true, [])
  | c :: cs, f :: fs =>
    if f.sendRaises then (false, [])
    else
      let r := otpLoop_oauth cs fs
      (r.1, (f.tag, String.mk [c]) :: r.2)

/-- `zerodha_api_login.enter_otp` (lines 171-220).  Empty field list
returns `False`; a single field gets the whole OTP through one
`send_keys` (the JS value assignment, `clear` and `click` before it are
each wrapped in a swallowing `try`); otherwise the split-box loop runs. -/
def enter_otp (otp : List Char) (fields : List Input) : Bool × List (Nat × String) :=
  match fields with
  | [] => (false, [])
  | [f] => if f.sendRaises then (false, []) else (true, [(f.tag, String.mk otp)])
  | _ :: _ :: _ => otpLoop_oauth otp fields

/-- The split-box loop of `kite_dashboard_login.enter_otp_into_fields`
(lines 167-175): here `driver.execute_script(scrollIntoView)` and
`fld.clear()` are unguarded (only `fld.click()` has a swallowing `try`),
so a raising script or clear aborts with `False` via the outer handler. -/
def otpLoop_dash : List Char → List Input → Bool × List (Nat × String)
  | [], _ => (true, [])
  | _ :: _, [] => (true, [])
  | c :: cs, f :: fs =>
    if f.scriptRaises || f.clearRaises || f.sendRaises then (false, [])
    else
      let r := otpLoop_dash cs fs
      (r.1, (f.tag, String.mk [c]) :: r.2)

/-- `kite_dashboard_login.enter_otp_into_fields` (lines 156-180).  A
single field gets `click` (swallowed `try`), then an unguarded `clear`
and `send_keys(otp)`; any other field count (including zero, for which
the Python loop immediately breaks and returns `True`) runs the
split-box loop. -/
def enter_otp_into_fields (otp : List Char) (fields : List Input) :
    Bool × List (Nat × String) :=
  match fields with
  | [f] =>
    if f.clearRaises || f.sendRaises then (false, [])
    else (true, [(f.tag, String.mk otp)])
  | _ => otpLoop_dash otp fields

/-- A `<button>` element handle with the state the continuation triggers
query. -/
structure Button where
  label : String
  isSubmit : Bool
  visible : Bool
  enabled : Bool
  clickRaises : Bool
  tag : Nat
deriving DecidableEq, Repr

/-- `pat` occurs as a contiguous sublist of `s`. -/
def infixOfB (pat : List Char) : List Char → Bool
  | [] => pat.isEmpty
  | c :: t => pat.isPrefixOf (c :: t) || infixOfB pat t

/-- `pat` occurs as a substring of `s` (the Python `pat in s` test). -/
def substrB (pat s : String) : Bool := infixOfB pat.toList s.toList

/-- Character-wise lower-casing, used to state what a case-insensitive
label match would be. -/
def lowerStr (s : String) : String := String.mk (s.toList.map Char.toLower)

/-- XPath of the first strategy in
`kite_dashboard_login.click_continue_button`:
`//button[contains(text(),Continue) or contains(text(),CONTINUE)]` —
note the match is on the two exact-case substrings only. -/
def contLabelHit (b : Button) : Bool :=
  substrB "Continue" b.label || substrB "CONTINUE" b.label

/-- Selenium `element_to_be_clickable`: displayed and enabled. -/
def clickableB (b : Button) : Bool := b.visible && b.enabled

/-- Final fallback of `kite_dashboard_login.click_continue_button`
(lines 206-209): iterate all buttons, click the first displayed and
enabled one; that click is unguarded, so a raising click reaches the
outer handler which returns `False`.  Returns whether a control was
activated and the tag of the clicked button. -/
def stratAnyButton (bs : List Button) : Bool × Option Nat :=
  match bs.find? clickableB with
  | some b => if b.clickRaises then (false, none) else (true, some b.tag)
  | none => (false, none)

/-- Second strategy of `click_continue_button` (lines 197-203): wait for
the first `//button[@type=submit]` to be clickable and click it; the
wait inspects only the first matching element, and a timeout or raising
click falls through to the fallback. -/
def stratSubmitButton (bs : List Button) : Bool × Option Nat :=
  match bs.find? (·.isSubmit) with
  | some b =>
    if clickableB b && !b.clickRaises then (true, some b.tag)
    else stratAnyButton bs
  | none => stratAnyButton bs

/-- `kite_dashboard_login.click_continue_button` (lines 183-214): first
the Continue/CONTINUE label strategy (the clickability wait inspects
only the first label-matching element), then the submit-type strategy,
then the any-visible-enabled-button fallback; each strategy that
activates a control returns `True` immediately. -/
def click_continue_button (bs : List Button) : Bool × Option Nat :=
  match bs.find? contLabelHit with
  | some b =>
    if clickableB b && !b.clickRaises then (true, some b.tag)
    else stratSubmitButton bs
  | none => stratSubmitButton bs

/-- Normalized label as tested by the inline continue click in
`zerodha_api_login.perform_oauth_login` (line 303), whose XPath accepts
`normalize-space()` equal to `Continue`, `CONTINUE` or `Continue `. -/
def contLabelNorm_oauth (b : Button) : Bool :=
  b.label.trim = "Continue" || b.label.trim = "CONTINUE"

/-- The inline continue click of `perform_oauth_login` (lines 300-322):
iterate the label-matching buttons clicking the first displayed, enabled
one whose click does not raise (raises are swallowed per button); if
none was clicked, click the first submit-type button unconditionally
(that click raise is swallowed too).  Only two strategies exist here. -/
def click_continue_oauth (bs : List Button) : Bool :=
  match (bs.filter contLabelNorm_oauth).find? (fun b => clickableB b && !b.clickRaises) with
  | some _ => true
  | none =>
    match bs.find? (·.isSubmit) with
    | some b => !b.clickRaises
    | none => false

/-- Everything after the first occurrence of `sep`, or `none` when
`sep` does not occur. -/
def afterFirst (sep : Char) : List Char → Option (List Char)
  | [] => none
  | c :: t => if c = sep then some t else afterFirst sep t

/-- Everything before the first occurrence of `sep` (the whole list when
`sep` does not occur). -/
def beforeFirst (sep : Char) : List Char → List Char
  | [] => []
  | c :: t => if c = sep then [] else c :: beforeFirst sep t

/-- Split at every occurrence of `sep`. -/
def splitCh (sep : Char) : List Char → List (List Char)
  | [] => [[]]
  | c :: t =>
    match splitCh sep t with
    | [] => [[]]
    | h :: r => if c = sep then [] :: h :: r else (c :: h) :: r

/-- `urlparse(url).query`: the part of the URL after the first `?`,
truncated at the following `#`. -/
def queryOf (url : String) : String :=
  match afterFirst '?' url.toList with
  | none => ""
  | some rest => String.mk (beforeFirst '#' rest)

/-- One `name=value` pair as `parse_qs` treats it: the name is what
precedes the first `=`, the value what follows it; a pair without `=`
and a pair with a blank value are dropped (the default
`keep_blank_values=False`).  Percent-decoding, which the stdlib would
also apply, is not modelled. -/
def pairVal (key p : List Char) : Option String :=
  match afterFirst '=' p with
  | none => none
  | some v =>
    if beforeFirst '=' p = key && !v.isEmpty then some (String.mk v) else none

/-- `parse_qs(query).get(key, [None])[0]`: split the query on `&` and
return the first non-blank value bound to `key`. -/
def parse_qs_get (query key : String) : Option String :=
  ((splitCh '&' query.toList).filterMap (pairVal key.toList)).head?

/-- The marker test `"request_token=" in cur`. -/
def hasMarker (s : String) : Bool := substrB "request_token=" s

/-- A read of `driver.current_url` at poll iteration `t`, with the read
failure swallowed into an empty string, as both polling loops do
(`zerodha_api_login` lines 230-233, `kite_dashboard_login` lines 97-100). -/
def readUrl (urls : Nat → Except Unit String) (t : Nat) : String :=
  match urls t with
  | .ok u => u
  | .error _ => ""

/-- `wait_for_request_token` (identical logic in both scripts,
`zerodha_api_login` lines 224-241 and `kite_dashboard_login` lines
94-113): poll the current URL for `fuel` iterations, swallowing read
failures; on a marker hit decode `request_token` and `status` from the
query string; on timeout return `(None, None, driver.current_url)` —
that final URL read is NOT guarded by any `try`, so its failure escapes
as an exception (`Except.error`). -/
def wait_for_request_token (urls : Nat → Except Unit String) :
    Nat → Nat → Except Unit (Option String × Option String × String)
  | 0, t => (urls t).map fun u => (none, none, u)
  | fuel + 1, t =>
    let cur := readUrl urls t
    if hasMarker cur then
      .ok (parse_qs_get (queryOf cur) "request_token",
           parse_qs_get (queryOf cur) "status", cur)
    else wait_for_request_token urls fuel (t + 1)

/-- Side effects of a login attempt that the claims talk about:
`shot s` is a diagnostic screenshot whose file name starts with `s`,
`mail s` a notification mail with subject `s`, and `saved uid tok` a
completed `save_encrypted_token(uid, tok)` call. -/
inductive Ev where
  | shot (tagStr : String)
  | mail (subj : String)
  | saved (uid tok : String)
deriving DecidableEq, Repr

/-- An exception escaping a per-account attempt in
`kite_dashboard_login`: a failure of `build_driver()` (called before the
`try`, line 221) or a `KeyboardInterrupt` (not caught by the
`except Exception` handler). -/
inductive DashErr where
  | buildFailed
  | interrupted
deriving DecidableEq, Repr

/-- The keep-alive loop of `zerodha_api_login.perform_oauth_login`
(lines 375-385): at each iteration the `execute_script` heartbeat sits
in a `try/except Exception: pass`, and the whole loop sits in a
`try/except KeyboardInterrupt`, so a script failure (`scriptFails t`) is
swallowed and a cancellation arriving at iteration `t` (`cancel = some
t`) ends the loop with the interrupt caught.  Returns the iteration
index at which the loop stopped; it never propagates an exception. -/
def heartbeat_oauth (scriptFails : Nat → Bool) (cancel : Option Nat) :
    Nat → Nat → Except DashErr Nat
  | 0, t => .ok t
  | fuel + 1, t =>
    if cancel = some t then .ok t
    else
      let _ := scriptFails t
      heartbeat_oauth scriptFails cancel fuel (t + 1)

/-- The 24-hour keep-alive loop of
`kite_dashboard_login.perform_login_for_account` (lines 271-283): the
scroll heartbeat sits in a bare `try/except: pass` (which would swallow
even an interrupt arriving during it), but the `time.sleep(30)` between
iterations is unguarded, and the surrounding `except Exception` does not
catch `KeyboardInterrupt` — so a cancellation arriving during the sleep
of iteration `t` (`cancel = some t`) escapes the attempt entirely. -/
def heartbeat_dash (scriptFails : Nat → Bool) (cancel : Option Nat) :
    Nat → Nat → Except DashErr Nat
  | 0, t => .ok t
  | fuel + 1, t =>
    let _ := scriptFails t
    if cancel = some t then .error .interrupted
    else heartbeat_dash scriptFails cancel fuel (t + 1)

/-- Poll-iteration budget of `find_otp_fields(driver, timeout=18)` in
`zerodha_api_login` (18 s at a 0.4 s poll interval). -/
def otpFuel_oauth : Nat := 45

/-- Poll-iteration budget of `find_otp_fields(driver)` in
`kite_dashboard_login` (default 15 s at a 0.3 s poll interval). -/
def otpFuel_dash : Nat := 50

/-- Poll-iteration budget of `wait_for_request_token(driver, timeout=30)`
(30 s at a 0.5 s poll interval). -/
def rtFuel : Nat := 60

/-- Iteration budget of the dashboard keep-alive loop: 24 hours at one
iteration per 30 s sleep. -/
def hbIters_dash : Nat := 2880

/-- The external world one OAuth-variant login attempt interacts with:
whether the `userid` field appears (`loginFormOk`), the page stream seen
by the OTP locator, the `pyotp` TOTP generation result (`none` when it
raises), the buttons seen by the continue click, the URL stream seen by
the redirect poller, whether the dashboard-markup probe (line 331)
succeeds, the `generate_session` exchange (error, or the optional
`access_token` in its response), the token store, and the keep-alive
parameters. -/
structure OauthEnv where
  loginFormOk : Bool
  pages : Nat → Page
  otpCode : Option (List Char)
  buttons : List Button
  urls : Nat → Except Unit String
  dashboardMarkup : Bool
  exchange : String → Except Unit (Option String)
  store : String → Except Unit Unit
  keepIters : Nat
  hbScriptFails : Nat → Bool
  hbCancel : Option Nat

/-- Python truthiness of the polled `request_token` value: `not rt` is
true for `None` and for the empty string. -/
def pyFalsy : Option String → Bool
  | none => true
  | some s => s.isEmpty

/-- `zerodha_api_login.perform_oauth_login` (lines 245-410), returning
the boolean outcome together with the trace of screenshot / mail /
token-store events, in order.  Every exception raised inside the `try`
is caught by the `except WebDriverException` / `except Exception`
handlers, which screenshot and return `False`, so the attempt never
propagates an exception in this model. -/
def perform_oauth_login (uid : String) (env : OauthEnv) : Bool × List Ev :=
  if !env.loginFormOk then
    (false, [.shot ("webdriver_exc_" ++ uid)])
  else
    match find_otp_fields_oauth env.pages otpFuel_oauth 0 with
    | none =>
      (false, [.shot ("no_otp_" ++ uid), .mail ("Kite OTP not found for " ++ uid)])
    | some fields =>
      match env.otpCode with
      | none => (false, [])
      | some otp =>
        if !(enter_otp otp fields).1 then
          (false, [.shot ("otp_entry_fail_" ++ uid),
                   .mail ("Kite OTP entry failed for " ++ uid)])
        else
          let _clicked := click_continue_oauth env.buttons
          match wait_for_request_token env.urls rtFuel 0 with
          | .error _ => (false, [.shot ("webdriver_exc_" ++ uid)])
          | .ok (rt?, _status, _finalUrl) =>
            if pyFalsy rt? then
              if env.dashboardMarkup then
                (true, [.shot ("logged_in_no_request_" ++ uid)])
              else
                (false, [.shot ("no_request_token_" ++ uid),
                         .mail ("Kite login failed for " ++ uid)])
            else
              match env.exchange (rt?.getD "") with
              | .error _ =>
                (false, [.shot ("generate_session_" ++ uid),
                         .mail ("Kite generate_session failed for " ++ uid)])
              | .ok none =>
                (false, [.shot ("no_access_token_" ++ uid),
                         .mail ("Kite token missing for " ++ uid)])
              | .ok (some tok) =>
                match env.store tok with
                | .error _ => (false, [])
                | .ok _ =>
                  let _hb := heartbeat_oauth env.hbScriptFails env.hbCancel env.keepIters 0
                  (true, [.saved uid tok,
                          .mail ("Kite token updated for " ++ uid)])

/-- The external world one dashboard-variant login attempt interacts
with.  There are no exchange or store collaborators because
`perform_login_for_account` never exchanges or stores a token. -/
structure DashEnv where
  buildOk : Bool
  loginFormOk : Bool
  pages : Nat → Page
  otpCode : Option (List Char)
  buttons : List Button
  urls : Nat → Except Unit String
  hbScriptFails : Nat → Bool
  hbCancel : Option Nat

/-- `kite_dashboard_login.perform_login_for_account` (lines 219-294).
`build_driver()` runs before the `try`, so its failure escapes; the
`except Exception` handler screenshots and returns `False` for every
exception inside the `try` except a `KeyboardInterrupt`, which escapes
(in particular out of the 24-hour keep-alive loop).  After the redirect
poll the function declares success unconditionally — it performs no
token exchange, no store call and no dashboard probe. -/
def perform_login_for_account (uid : String) (env : DashEnv) :
    Except DashErr (Bool × List Ev) :=
  if !env.buildOk then .error .buildFailed
  else if !env.loginFormOk then .ok (false, [.shot ("exception_" ++ uid)])
  else
    match find_otp_fields_dash env.pages otpFuel_dash 0 with
    | none => .ok (false, [.shot ("no_otp_" ++ uid)])
    | some fields =>
      match env.otpCode with
      | none => .ok (false, [.shot ("exception_" ++ uid)])
      | some otp =>
        if !(enter_otp_into_fields otp fields).1 then
          .ok (false, [.shot ("otp_fail_" ++ uid)])
        else
          let _clicked := click_continue_button env.buttons
          match wait_for_request_token env.urls rtFuel 0 with
          | .error _ => .ok (false, [.shot ("exception_" ++ uid)])
          | .ok _ =>
            match heartbeat_dash env.hbScriptFails env.hbCancel hbIters_dash 0 with
            | .error e => .error e
            | .ok _ => .ok (true, [])

/-- What `zerodha_api_login.main` (lines 421-431) observes of one loop
body: the boolean result of `perform_oauth_login`, or an exception
escaping it — distinguished by the two handlers into `KeyboardInterrupt`
(break) and any other `Exception` (log and continue). -/
inductive LoopExc where
  | unexpected
  | interrupt
deriving DecidableEq, Repr

/-- The account loop of `zerodha_api_login.main`: an `ok` result is
recorded, an unexpected exception is logged (`none`) and the loop
continues with the next account, and a `KeyboardInterrupt` breaks out of
the loop. -/
def main_oauth_loop : List (Except LoopExc Bool) → List (Option Bool)
  | [] => []
  | .ok b :: rest => some b :: main_oauth_loop rest
  | .error .unexpected :: rest => none :: main_oauth_loop rest
  | .error .interrupt :: _ => []

/-- The account loop of `kite_dashboard_login.main` (lines 315-317): the
bare `perform_login_for_account` call has no surrounding `try`, so the
first escaping exception aborts the whole batch; the returned pair is
the outcomes of the accounts that were attempted and the aborting
exception, if any. -/
def main_dash : List (String × DashEnv) → List Bool × Option DashErr
  | [] => ([], none)
  | (uid, env) :: rest =>
    match perform_login_for_account uid env with
    | .ok (b, _) =>
      let r := main_dash rest
      (b :: r.1, r.2)
    | .error e => ([], some e)

/-- One `csv.DictReader` row: an association of header names to cell
values, in header order. -/
def Row := List (String × String)

/-- `r.get(k)`: the value under header `k`, or `None` when the header is
absent. -/
def rowGet (r : Row) (k : String) : Option String :=
  (r.find? (fun p => p.1 = k)).map (·.2)

/-- Python `a or b` on optional strings: `a` unless it is `None` or
empty (falsy), else `b`. -/
def pyOr (a b : Option String) : Option String :=
  match a with
  | some s => if s.isEmpty then b else some s
  | none => b

/-- Python truthiness of an optional string. -/
def pyTruthy : Option String → Bool
  | none => false
  | some s => !s.isEmpty

/-- Python `s.strip()`: drop whitespace from both ends. -/
def stripStr (s : String) : String :=
  String.mk (((s.toList.dropWhile Char.isWhitespace).reverse.dropWhile
    Char.isWhitespace).reverse)

/-- The `user_id` lookup of `zerodha_api_login.read_accounts` (line 91):
`r.get("user_id") or r.get("userid") or r.get("user")`. -/
def uidOf_oauth (r : Row) : Option String :=
  pyOr (rowGet r "user_id") (pyOr (rowGet r "userid") (rowGet r "user"))

/-- The `totp_secret` lookup of `zerodha_api_login.read_accounts`
(line 93): `r.get("totp_secret") or r.get("totp") or r.get("secret")`. -/
def totpOf_oauth (r : Row) : Option String :=
  pyOr (rowGet r "totp_secret") (pyOr (rowGet r "totp") (rowGet r "secret"))

/-- `zerodha_api_login.read_accounts` (lines 83-98), starting from the
parsed rows: a row whose user id (under its three accepted spellings),
password, or TOTP secret (three spellings) is missing or empty is
skipped with a warning; accepted rows contribute the stripped triple. -/
def read_accounts_oauth : List Row → List (String × String × String)
  | [] => []
  | r :: rest =>
    let uid := uidOf_oauth r
    let pwd := rowGet r "password"
    let totp := totpOf_oauth r
    if pyTruthy uid && pyTruthy pwd && pyTruthy totp then
      (stripStr (uid.getD ""), stripStr (pwd.getD ""), stripStr (totp.getD "")) ::
        read_accounts_oauth rest
    else read_accounts_oauth rest

/-- `kite_dashboard_login.read_accounts` (lines 299-304): subscripting
`r["user_id"]`, `r["password"]`, `r["totp_secret"]` with no alternate
spellings; a missing header raises `KeyError`, aborting the whole load
(`Except.error`). -/
def read_accounts_dash : List Row → Except Unit (List (String × String × String))
  | [] => .ok []
  | r :: rest =>
    match rowGet r "user_id", rowGet r "password", rowGet r "totp_secret" with
    | some u, some p, some t => (read_accounts_dash rest).map ((u, p, t) :: ·)
    | _, _, _ => .error ()

/-- The Fernet cipher of the `cryptography` library as `token_manager.py`
uses it: an external symmetric scheme whose decryption inverts its
encryption (the documented library contract). -/
structure FernetLike where
  enc : String → String
  dec : String → Option String
  roundtrip : ∀ s, dec (enc s) = some s

/-- `tokens/{client_id}_access_token.enc`, the path used by all three
token-manager operations. -/
def tokenPath (clientId : String) : String :=
  "tokens/" ++ clientId ++ "_access_token.enc"

/-- The file system under the `tokens` directory: path to contents. -/
def TokenFS := String → Option String

/-- `token_manager.save_encrypted_token` (lines 14-24): `_get_fernet`
raises when `FERNET_KEY` is absent from the environment (`key = none`);
otherwise the encrypted token is written to the per-client path, and the
`chmod(0o600)` sits in a `try/except Exception: pass`, so an unsupported
permission change (`chmodOk = false`) never fails the save. -/
def save_encrypted_token (key : Option FernetLike) (chmodOk : Bool)
    (fs : TokenFS) (clientId token : String) : Except Unit TokenFS :=
  match key with
  | none => .error ()
  | some f =>
    let fs1 : TokenFS := fun q => if q = tokenPath clientId then some (f.enc token) else fs q
    let _ := chmodOk
    .ok fs1

/-- `token_manager.load_encrypted_token` (lines 26-32): missing file
raises `FileNotFoundError`; then `_get_fernet` raises when the key is
absent; then the file contents are decrypted (a decryption failure
raises inside the library). -/
def load_encrypted_token (key : Option FernetLike) (fs : TokenFS)
    (clientId : String) : Except Unit String :=
  match fs (tokenPath clientId) with
  | none => .error ()
  | some encTok =>
    match key with
    | none => .error ()
    | some f =>
      match f.dec encTok with
      | some s => .ok s
      | none => .error ()

/-! Concrete sample inputs used by the witnesses and counterexamples. -/

/-- A visible, enabled, never-raising split OTP digit box. -/
def mkBox (n : Nat) : Input where
  maxlength1 := true
  inputmodeNumeric := true
  classOtp := false
  classDigit := false
  typeTel := false
  typeNumber := false
  typePassword := false
  visible := true
  enabled := true
  sendRaises := false
  clearRaises := false
  scriptRaises := false
  tag := n

/-- Four split digit boxes, as in end-to-end scenario B of the spec. -/
def fourBoxes : List Input := [mkBox 0, mkBox 1, mkBox 2, mkBox 3]

/-- A visible, enabled, never-raising single `totp` field. -/
def totpField : Input :=
  { mkBox 3 with maxlength1 := false, tag := 3 }

/-- An invisible, disabled element carrying the `totp` id. -/
def hiddenTotp : Input :=
  { mkBox 7 with visible := false, enabled := false, tag := 7 }

/-- A page whose only OTP-related element is the invisible, disabled
`totp` element. -/
def pageHidden : Page where
  idTotp := [hiddenTotp]
  idPin := []
  inputs := []

/-- A page with a single healthy `totp` field. -/
def pageTotp : Page where
  idTotp := [totpField]
  idPin := []
  inputs := []

/-- A page with no OTP-related elements at all. -/
def emptyPage : Page where
  idTotp := []
  idPin := []
  inputs := []

/-- A page with two visible, enabled split digit boxes. -/
def pageSplit : Page where
  idTotp := []
  idPin := []
  inputs := [mkBox 0, mkBox 1]

/-- A clickable button labelled `continue` in lower case; not a submit
button. -/
def lcContinueBtn : Button where
  label := "continue"
  isSubmit := false
  visible := true
  enabled := true
  clickRaises := false
  tag := 0

/-- A clickable submit-type button labelled `OK`. -/
def okSubmitBtn : Button where
  label := "OK"
  isSubmit := true
  visible := true
  enabled := true
  clickRaises := false
  tag := 1

/-- A clickable button labelled `Continue`. -/
def contOkBtn : Button where
  label := "Continue"
  isSubmit := false
  visible := true
  enabled := true
  clickRaises := false
  tag := 2

/-- An OAuth-variant environment in which everything works except that
no OTP field ever appears. -/
def oauthEnvNoOtp : OauthEnv where
  loginFormOk := true
  pages := fun _ => emptyPage
  otpCode := some ['1', '2', '3', '4', '5', '6']
  buttons := [contOkBtn]
  urls := fun _ => .ok "https://kite.zerodha.com/"
  dashboardMarkup := false
  exchange := fun _ => .ok none
  store := fun _ => .ok ()
  keepIters := 0
  hbScriptFails := fun _ => false
  hbCancel := none

/-- An OAuth-variant environment in which the whole token path works:
the redirect URL carries a request token, the exchange returns
`tok_xyz`, and the store accepts it. -/
def oauthEnvHappy : OauthEnv where
  loginFormOk := true
  pages := fun _ => pageTotp
  otpCode := some ['1', '2', '3', '4', '5', '6']
  buttons := [contOkBtn]
  urls := fun _ => .ok "http://localhost:8000/callback?request_token=abc123&status=success"
  dashboardMarkup := false
  exchange := fun rt => if rt = "abc123" then .ok (some "tok_xyz") else .ok none
  store := fun _ => .ok ()
  keepIters := 0
  hbScriptFails := fun _ => false
  hbCancel := none

/-- `oauthEnvHappy` with a token store that always raises. -/
def oauthEnvStoreFails : OauthEnv :=
  { oauthEnvHappy with store := fun _ => .error () }

/-- A dashboard-variant environment in which the login flow works but
the URL never carries the request-token marker: no dashboard probe, no
exchange and no store exist in this variant. -/
def dashEnvHappy : DashEnv where
  buildOk := true
  loginFormOk := true
  pages := fun _ => pageTotp
  otpCode := some ['1', '2', '3', '4', '5', '6']
  buttons := [contOkBtn]
  urls := fun _ => .ok "https://kite.zerodha.com/dashboard"
  hbScriptFails := fun _ => false
  hbCancel := none

/-- `dashEnvHappy` with a failing `build_driver()`. -/
def dashEnvBadBuild : DashEnv :=
  { dashEnvHappy with buildOk := false }

/-- `dashEnvHappy` with a keep-alive cancellation at iteration 5. -/
def dashEnvCancel : DashEnv :=
  { dashEnvHappy with hbCancel := some 5 }

/-- A dashboard-variant environment in which no OTP field ever appears. -/
def dashEnvNoOtp : DashEnv :=
  { dashEnvHappy with pages := fun _ => emptyPage }

/-- A toy instance of the external Fernet cipher: prepend a byte on
encryption, strip it on decryption. -/
def sampleFernet : FernetLike where
  enc := fun s => String.mk ('k' :: s.toList)
  dec := fun s =>
    match s.toList with
    | _ :: t => some (String.mk t)
    | [] => none
  roundtrip := fun _ => rfl

/-- An empty token directory. -/
def emptyFS : TokenFS := fun _ => none

/-! ## Claim theorems -/

/-- C10: for every client id and token, with the symmetric key present,
`load_encrypted_token` after `save_encrypted_token` returns exactly the
original token, and the save result does not depend on whether
restricting file permissions is supported. -/
theorem C10_token_roundtrip (f : FernetLike) (chmodOk : Bool) (fs : TokenFS)
    (clientId token : String) (key : Option FernetLike) (hk : key = some f) :
    ∃ fs1, save_encrypted_token key chmodOk fs clientId token = .ok fs1 ∧
      load_encrypted_token key fs1 clientId = .ok token ∧
      ∀ chmodOk2, save_encrypted_token key chmodOk2 fs clientId token = .ok fs1 := by
  subst hk
  refine ⟨_, rfl, ?_, fun _ => rfl⟩
  simp [load_encrypted_token, save_encrypted_token, f.roundtrip]

/-- C10 witness: concrete round trip through the toy cipher, with the
permission change unsupported. -/
theorem C10_token_roundtrip_witness :
    ∃ fs1, save_encrypted_token (some sampleFernet) false emptyFS "AB1234" "tok_xyz" = .ok fs1 ∧
      load_encrypted_token (some sampleFernet) fs1 "AB1234" = .ok "tok_xyz" ∧
      ∀ chmodOk2, save_encrypted_token (some sampleFernet) chmodOk2 emptyFS "AB1234" "tok_xyz" = .ok fs1 :=
  C10_token_roundtrip sampleFernet false emptyFS "AB1234" "tok_xyz" (some sampleFernet) rfl

/-- C8 falls on `kite_dashboard_login.read_accounts`: a row using the
accepted alternate header `userid` is loaded by the OAuth-variant
loader, but makes the dashboard-variant loader raise `KeyError`,
aborting the whole load instead of skipping the row. -/
theorem C8_dash_loader_fails_on_alternate_header :
    read_accounts_oauth [[("userid", "U1"), ("password", "p"), ("totp_secret", "s")]] =
      [("U1", "p", "s")] ∧
    read_accounts_dash [[("userid", "U1"), ("password", "p"), ("totp_secret", "s")]] =
      .error () := by
  exact ⟨by decide, rfl⟩

/-- C8 amended: the OAuth-variant loader accepts the alternate header
spellings and skips a row whose required fields are not all present and
non-empty, without failing; the dashboard-variant loader accepts only
the exact headers and a missing one aborts the load. -/
theorem C8_oauth_loader_alternates_and_skips (u p t : String) (r : Row) (rows : List Row)
    (hu : u.isEmpty = false) (hp : p.isEmpty = false) (ht : t.isEmpty = false)
    (hr : (pyTruthy (uidOf_oauth r) && pyTruthy (rowGet r "password") &&
           pyTruthy (totpOf_oauth r)) = false) :
    read_accounts_oauth ([("userid", u), ("password", p), ("secret", t)] :: rows) =
      (stripStr u, stripStr p, stripStr t) :: read_accounts_oauth rows ∧
    read_accounts_oauth (r :: rows) = read_accounts_oauth rows := by
  constructor
  · simp [read_accounts_oauth, uidOf_oauth, totpOf_oauth, rowGet, pyOr, pyTruthy,
          List.find?, hu, hp, ht]
  · simp only [read_accounts_oauth]
    rw [hr]
    simp

/-- C8 witness: a row under alternate headers is loaded, and a row
missing its password is skipped while the rest of the load proceeds. -/
theorem C8_oauth_loader_alternates_and_skips_witness :
    read_accounts_oauth [[("userid", " U9 "), ("password", "pw"), ("secret", "se")]] =
      [("U9", "pw", "se")] ∧
    read_accounts_oauth
        ([("user_id", "U8")] :: [[("userid", " U9 "), ("password", "pw"), ("secret", "se")]]) =
      read_accounts_oauth [[("userid", " U9 "), ("password", "pw"), ("secret", "se")]] := by
  have h1 := C8_oauth_loader_alternates_and_skips " U9 " "pw" "se" [("user_id", "U8")] []
    (by decide) (by decide) (by decide) (by decide)
  have h2 := C8_oauth_loader_alternates_and_skips " U9 " "pw" "se" [("user_id", "U8")]
    [[("userid", " U9 "), ("password", "pw"), ("secret", "se")]]
    (by decide) (by decide) (by decide) (by decide)
  constructor
  · rw [h1.1]; decide
  · exact h2.2

/-- C3 falls on the final URL read: when reading the current URL fails
at every poll (so the marker is never observed), the poller does not
return an empty artifact — the unguarded `driver.current_url` read on
the timeout path raises. -/
theorem C3_poller_raises_on_final_url_read :
    wait_for_request_token (fun _ => .error ()) 3 0 = .error () := rfl

/-- C3 amended: if the observed URL never contains the marker before the
timeout, read failures during polling are swallowed, and the poller
returns an artifact with `None` token and status and the URL read at
timeout — unless that final read itself fails, in which case the
exception propagates. -/
theorem C3_poller_timeout_result (urls : Nat → Except Unit String) (fuel t : Nat)
    (h : ∀ k, k < fuel → hasMarker (readUrl urls (t + k)) = false) :
    wait_for_request_token urls fuel t =
      (urls (t + fuel)).map (fun u => (none, none, u)) := by
  induction fuel generalizing t with
  | zero => simp [wait_for_request_token]
  | succ n ih =>
    have h0 : hasMarker (readUrl urls t) = false := by simpa using h 0 (Nat.succ_pos n)
    have hrest : ∀ k, k < n → hasMarker (readUrl urls (t + 1 + k)) = false := by
      intro k hk
      have := h (k + 1) (by omega)
      simpa [Nat.add_assoc, Nat.add_comm, Nat.add_left_comm] using this
    have heq : t + 1 + n = t + (n + 1) := by omega
    simp only [wait_for_request_token, h0, Bool.false_eq_true, if_false]
    rw [ih (t + 1) hrest, heq]

/-- C3 witness: a URL stream that never gains the marker yields the
empty artifact with the final URL after the timeout. -/
theorem C3_poller_timeout_result_witness :
    wait_for_request_token (fun _ => .ok "https://kite.zerodha.com/dashboard") 2 0 =
      .ok (none, none, "https://kite.zerodha.com/dashboard") := by
  have h := C3_poller_timeout_result (fun _ => .ok "https://kite.zerodha.com/dashboard") 2 0
    (by decide)
  simpa using h

/-- When no send raises, the OAuth split-box loop succeeds and delivers
the i-th OTP character to the i-th field, for `min L M` fields. -/
theorem otpLoop_oauth_ok (otp : List Char) (fields : List Input)
    (hok : ∀ f ∈ fields, f.sendRaises = false) :
    otpLoop_oauth otp fields =
      (true, (otp.zip fields).map fun q => (q.2.tag, String.mk [q.1])) := by
  induction otp generalizing fields with
  | nil => cases fields <;> rfl
  | cons c cs ih =>
    cases fields with
    | nil => rfl
    | cons f fs =>
      have hf : f.sendRaises = false := hok f (by simp)
      have hfs : ∀ g ∈ fs, g.sendRaises = false := fun g hg => hok g (by simp [hg])
      simp [otpLoop_oauth, hf, ih fs hfs]

/-- When no interaction raises, the dashboard split-box loop succeeds
and delivers the i-th OTP character to the i-th field. -/
theorem otpLoop_dash_ok (otp : List Char) (fields : List Input)
    (hok : ∀ f ∈ fields, f.sendRaises = false ∧ f.clearRaises = false ∧
      f.scriptRaises = false) :
    otpLoop_dash otp fields =
      (true, (otp.zip fields).map fun q => (q.2.tag, String.mk [q.1])) := by
  induction otp generalizing fields with
  | nil => cases fields <;> rfl
  | cons c cs ih =>
    cases fields with
    | nil => rfl
    | cons f fs =>
      have hf := hok f (by simp)
      have hfs : ∀ g ∈ fs, g.sendRaises = false ∧ g.clearRaises = false ∧
          g.scriptRaises = false := fun g hg => hok g (by simp [hg])
      simp [otpLoop_dash, hf.1, hf.2.1, hf.2.2, ih fs hfs]

/-- C2: for every OTP and non-empty field list whose interactions do not
raise, both injectors report success; a single field receives the whole
OTP string in one send, and with two or more fields exactly
`min L M` fields receive one character each, the i-th field receiving
the i-th OTP character and fields beyond the OTP length receiving
nothing. -/
theorem C2_injector_min_length_distribution (otp : List Char) (fields : List Input)
    (hok : ∀ f ∈ fields, f.sendRaises = false ∧ f.clearRaises = false ∧
      f.scriptRaises = false) :
    (∀ f, fields = [f] →
      enter_otp otp fields = (true, [(f.tag, String.mk otp)]) ∧
      enter_otp_into_fields otp fields = (true, [(f.tag, String.mk otp)])) ∧
    (2 ≤ fields.length →
      enter_otp otp fields =
        (true, (otp.zip fields).map fun q => (q.2.tag, String.mk [q.1])) ∧
      enter_otp_into_fields otp fields =
        (true, (otp.zip fields).map fun q => (q.2.tag, String.mk [q.1])) ∧
      ((otp.zip fields).map fun q => (q.2.tag, String.mk [q.1])).length =
        min otp.length fields.length) := by
  constructor
  · rintro f rfl
    have hf := hok f (by simp)
    constructor
    · simp [enter_otp, hf.1]
    · simp [enter_otp_into_fields, hf.1, hf.2.1]
  · intro hlen
    cases fields with
    | nil => simp at hlen
    | cons f1 rest =>
      cases rest with
      | nil => simp at hlen
      | cons f2 fs =>
        refine ⟨?_, ?_, by simp⟩
        · rw [show enter_otp otp (f1 :: f2 :: fs) = otpLoop_oauth otp (f1 :: f2 :: fs)
            from rfl, otpLoop_oauth_ok otp _ (fun g hg => (hok g hg).1)]
        · rw [show enter_otp_into_fields otp (f1 :: f2 :: fs) =
            otpLoop_dash otp (f1 :: f2 :: fs) from rfl, otpLoop_dash_ok otp _ hok]

/-- C2 witness: end-to-end scenario B of the spec — OTP `654321` into
four split boxes delivers `6`, `5`, `4`, `3` and succeeds in both
variants, and into a single field delivers the whole string. -/
theorem C2_injector_min_length_distribution_witness :
    enter_otp ['6', '5', '4', '3', '2', '1'] fourBoxes =
      (true, [(0, "6"), (1, "5"), (2, "4"), (3, "3")]) ∧
    enter_otp_into_fields ['6', '5', '4', '3', '2', '1'] fourBoxes =
      (true, [(0, "6"), (1, "5"), (2, "4"), (3, "3")]) ∧
    enter_otp ['6', '5', '4', '3', '2', '1'] [totpField] =
      (true, [(3, "654321")]) := by
  have h4 := (C2_injector_min_length_distribution ['6', '5', '4', '3', '2', '1']
    fourBoxes (by decide)).2 (by decide)
  have h1 := (C2_injector_min_length_distribution ['6', '5', '4', '3', '2', '1']
    [totpField] (by decide)).1 totpField rfl
  refine ⟨?_, ?_, ?_⟩
  · rw [h4.1]; decide
  · rw [h4.2.1]; decide
  · rw [h1.1]; decide

/-- C4 falls on `kite_dashboard_login.find_otp_fields`: its `totp` id
strategy returns the raw element list without the visible-and-enabled
filter, so an invisible, disabled element is returned. -/
theorem C4_dash_returns_invisible_disabled_totp :
    find_otp_fields_dash (fun _ => pageHidden) otpFuel_dash 0 = some [hiddenTotp] ∧
    hiddenTotp.visible = false ∧ hiddenTotp.enabled = false := by
  refine ⟨rfl, rfl, rfl⟩

/-- Unpack the displayed-and-enabled conjunction. -/
theorem visEn_spec (e : Input) (h : visEn e = true) :
    e.visible = true ∧ e.enabled = true := by
  simpa [visEn] using h

/-- Every element returned by one OAuth-variant locator pass is
displayed and enabled. -/
theorem findPass_oauth_visEn (p : Page) (r : List Input) (h : findPass_oauth p = some r) :
    ∀ e ∈ r, visEn e = true := by
  have hrest : ∀ r2, findPassRest_oauth p = some r2 → ∀ e ∈ r2, visEn e = true := by
    intro r2 h2 e he
    unfold findPassRest_oauth at h2
    split at h2
    · cases h2
      exact (List.mem_filter.mp he).2
    · split at h2
      · cases h2
      · cases h2
        exact (List.mem_filter.mp he).2
  have hpin : ∀ r2, findPassPin_oauth p = some r2 → ∀ e ∈ r2, visEn e = true := by
    intro r2 h2 e he
    unfold findPassPin_oauth at h2
    split at h2
    · rename_i el rest heq
      split at h2
      · cases h2
        simp at he
        subst he
        assumption
      · exact hrest r2 h2 e he
    · exact hrest r2 h2 e he
  unfold findPass_oauth at h
  split at h
  · rename_i el rest heq
    split at h
    · cases h
      intro e he
      simp at he
      subst he
      assumption
    · exact hpin r h
  · exact hpin r h

/-- C4 amended: in the OAuth variant every element the locator returns
is displayed and enabled; in the dashboard variant that filtering
applies only to the split-box and numeric strategies — the `totp` and
`pin` id strategies return elements unfiltered (see the counterexample)
and the password fallback checks visibility only, so when the id
strategies find nothing every returned element is at least visible. -/
theorem C4_locator_visibility_filtering (pages : Nat → Page) (fuel t : Nat) :
    (∀ r, find_otp_fields_oauth pages fuel t = some r →
      ∀ e ∈ r, e.visible = true ∧ e.enabled = true) ∧
    (∀ p r, p.idTotp = [] → p.idPin = [] → findPass_dash p = some r →
      ∀ e ∈ r, e.visible = true) := by
  constructor
  · induction fuel generalizing t with
    | zero => intro r h; cases h
    | succ n ih =>
      intro r h
      rw [find_otp_fields_oauth] at h
      split at h
      · rename_i heq
        cases h
        intro e he
        exact visEn_spec e (findPass_oauth_visEn _ _ heq e he)
      · exact ih (t + 1) r h
  · intro p r h1 h2 h e he
    unfold findPass_dash at h
    rw [h1, h2] at h
    simp only [List.isEmpty_nil, Bool.not_true, Bool.false_eq_true, if_false] at h
    split at h
    · cases h
      exact (visEn_spec e (List.mem_filter.mp he).2).1
    · split at h
      · cases h
        exact (visEn_spec e (List.mem_filter.mp he).2).1
      · split at h
        · cases h
          exact (visEn_spec e (List.mem_filter.mp he).2).1
        · split at h
          · cases h
            exact (List.mem_filter.mp he).2
          · cases h

/-- C4 witness: a page with two healthy split boxes — the OAuth locator
returns them and they are indeed displayed and enabled, and the
dashboard locator pass on the same page (which has no id matches)
returns only visible elements. -/
theorem C4_locator_visibility_filtering_witness :
    find_otp_fields_oauth (fun _ => pageSplit) otpFuel_oauth 0 = some [mkBox 0, mkBox 1] ∧
    ((mkBox 0).visible = true ∧ (mkBox 0).enabled = true) ∧
    findPass_dash pageSplit = some [mkBox 0, mkBox 1] ∧ (mkBox 1).visible = true := by
  have h := C4_locator_visibility_filtering (fun _ => pageSplit) otpFuel_oauth 0
  have hfind : find_otp_fields_oauth (fun _ => pageSplit) otpFuel_oauth 0 =
      some [mkBox 0, mkBox 1] := by decide
  have hpass : findPass_dash pageSplit = some [mkBox 0, mkBox 1] := by decide
  exact ⟨hfind, h.1 _ hfind (mkBox 0) (by decide),
    hpass, h.2 pageSplit _ rfl rfl hpass (mkBox 1) (by decide)⟩

/-- C5 falls on the label matching: the first strategy of
`click_continue_button` matches only the exact-case substrings
`Continue` and `CONTINUE`, not arbitrary casings.  A clickable button
whose label is `continue` (matched case-insensitively by the claim) is
passed over, and the submit-type strategy activates the other button
instead. -/
theorem C5_lowercase_continue_not_matched :
    substrB "continue" (lowerStr lcContinueBtn.label) = true ∧
    clickableB lcContinueBtn = true ∧ lcContinueBtn.clickRaises = false ∧
    click_continue_button [lcContinueBtn, okSubmitBtn] = (true, some okSubmitBtn.tag) := by
  refine ⟨by decide, rfl, rfl, by decide⟩

/-- C5 amended: `click_continue_button` tries exactly three strategies
in order — (a) the first button whose label contains the exact substring
`Continue` or `CONTINUE` (not a case-insensitive match), clicked if
displayed and enabled; (b) the first submit-type button, clicked if
displayed and enabled; (c) the first displayed, enabled button as an
unconditional fallback — and the first strategy that locates and
activates a control short-circuits the remaining ones. -/
theorem C5_trigger_strategy_order (bs : List Button) :
    (∀ b, bs.find? contLabelHit = some b → (clickableB b && !b.clickRaises) = true →
      click_continue_button bs = (true, some b.tag)) ∧
    ((∀ b, bs.find? contLabelHit = some b → (clickableB b && !b.clickRaises) = false) →
      ∀ b, bs.find? (·.isSubmit) = some b → (clickableB b && !b.clickRaises) = true →
        click_continue_button bs = (true, some b.tag)) ∧
    ((∀ b, bs.find? contLabelHit = some b → (clickableB b && !b.clickRaises) = false) →
      (∀ b, bs.find? (·.isSubmit) = some b → (clickableB b && !b.clickRaises) = false) →
      ∀ b, bs.find? clickableB = some b → b.clickRaises = false →
        click_continue_button bs = (true, some b.tag)) ∧
    ((∀ b, bs.find? contLabelHit = some b → (clickableB b && !b.clickRaises) = false) →
      (∀ b, bs.find? (·.isSubmit) = some b → (clickableB b && !b.clickRaises) = false) →
      (∀ b, bs.find? clickableB = some b → b.clickRaises = true) →
      click_continue_button bs = (false, none)) := by
  have hany : ∀ (h3 : ∀ b, bs.find? clickableB = some b → b.clickRaises = false)
      (b : Button), bs.find? clickableB = some b → stratAnyButton bs = (true, some b.tag) := by
    intro h3 b hb
    unfold stratAnyButton
    simp [hb, h3 b hb]
  have hsub : ∀ (h2 : ∀ b, bs.find? (·.isSubmit) = some b →
      (clickableB b && !b.clickRaises) = false), stratSubmitButton bs = stratAnyButton bs := by
    intro h2
    unfold stratSubmitButton
    split
    · rename_i b hb
      simp [h2 b hb]
    · rfl
  have hcont : ∀ (h1 : ∀ b, bs.find? contLabelHit = some b →
      (clickableB b && !b.clickRaises) = false),
      click_continue_button bs = stratSubmitButton bs := by
    intro h1
    unfold click_continue_button
    split
    · rename_i b hb
      simp [h1 b hb]
    · rfl
  refine ⟨?_, ?_, ?_, ?_⟩
  · intro b hb hc
    unfold click_continue_button
    simp [hb, hc]
  · intro h1 b hb hc
    rw [hcont h1]
    unfold stratSubmitButton
    simp [hb, hc]
  · intro h1 h2 b hb hc
    rw [hcont h1, hsub h2]
    exact hany (fun b2 hb2 => by rw [hb] at hb2; cases hb2; exact hc) b hb
  · intro h1 h2 h3
    rw [hcont h1, hsub h2]
    unfold stratAnyButton
    split
    · rename_i b hb
      simp [h3 b hb]
    · rfl

/-- C5 witness: a single clickable `Continue` button is activated by the
first strategy. -/
theorem C5_trigger_strategy_order_witness :
    click_continue_button [contOkBtn] = (true, some contOkBtn.tag) :=
  (C5_trigger_strategy_order [contOkBtn]).1 contOkBtn (by decide) (by decide)

/-- C6: in both variants, when the OTP field locator comes back empty
within its timeout, the attempt returns the `Failed` outcome and a
diagnostic screenshot tagged `no_otp_<user>` is captured before the
attempt returns (the OAuth variant additionally dispatches a
notification mail). -/
theorem C6_no_otp_fields_failed_with_screenshot (uid : String)
    (envO : OauthEnv) (envD : DashEnv)
    (hO1 : envO.loginFormOk = true)
    (hO2 : find_otp_fields_oauth envO.pages otpFuel_oauth 0 = none)
    (hD1 : envD.buildOk = true) (hD2 : envD.loginFormOk = true)
    (hD3 : find_otp_fields_dash envD.pages otpFuel_dash 0 = none) :
    perform_oauth_login uid envO =
      (false, [.shot ("no_otp_" ++ uid), .mail ("Kite OTP not found for " ++ uid)]) ∧
    perform_login_for_account uid envD = .ok (false, [.shot ("no_otp_" ++ uid)]) := by
  constructor
  · unfold perform_oauth_login
    rw [hO1, hO2]
    simp
  · unfold perform_login_for_account
    rw [hD1, hD2, hD3]
    simp

/-- C6 witness: environments in which no OTP field ever appears produce
the failed outcome with the `no_otp_U1` screenshot in both variants. -/
theorem C6_no_otp_fields_failed_with_screenshot_witness :
    perform_oauth_login "U1" oauthEnvNoOtp =
      (false, [.shot "no_otp_U1", .mail "Kite OTP not found for U1"]) ∧
    perform_login_for_account "U1" dashEnvNoOtp = .ok (false, [.shot "no_otp_U1"]) := by
  have h := C6_no_otp_fields_failed_with_screenshot "U1" oauthEnvNoOtp dashEnvNoOtp
    rfl (by decide) rfl rfl (by decide)
  exact h

/-- C7 falls on `kite_dashboard_login.main`: its account loop has no
`try`, and `build_driver()` runs before the `try` inside
`perform_login_for_account`, so a driver-construction failure on the
first account escapes and the second account is never attempted. -/
theorem C7_dash_batch_aborts_on_driver_failure :
    perform_login_for_account "U1" dashEnvBadBuild = .error .buildFailed ∧
    main_dash [("U1", dashEnvBadBuild), ("U2", dashEnvHappy)] =
      ([], some .buildFailed) := by
  exact ⟨rfl, rfl⟩

/-- C7 amended: in the OAuth variant, a failed attempt — including an
unexpected exception escaping `perform_oauth_login` — is caught and
logged and every subsequent account is still attempted, the batch
completing its pass unless a `KeyboardInterrupt` arrives; in the
dashboard variant an exception escaping one attempt (a driver
construction failure or an interrupt) aborts the batch. -/
theorem C7_oauth_batch_isolates_failures (rs : List (Except LoopExc Bool))
    (h : Except.error LoopExc.interrupt ∉ rs) :
    main_oauth_loop rs = rs.map Except.toOption ∧
    (main_oauth_loop rs).length = rs.length := by
  have hmap : main_oauth_loop rs = rs.map Except.toOption := by
    induction rs with
    | nil => rfl
    | cons r rest ih =>
      have hrest : Except.error LoopExc.interrupt ∉ rest := fun hm => h (by simp [hm])
      match r with
      | .ok b => simp [main_oauth_loop, Except.toOption, ih hrest]
      | .error .unexpected => simp [main_oauth_loop, Except.toOption, ih hrest]
      | .error .interrupt => exact absurd (by simp) h
  exact ⟨hmap, by rw [hmap]; simp⟩

/-- C7 witness: a batch whose first attempt fails and whose second
raises an unexpected exception still attempts the third account. -/
theorem C7_oauth_batch_isolates_failures_witness :
    main_oauth_loop [.ok false, .error .unexpected, .ok true] =
      [some false, none, some true] ∧
    (main_oauth_loop [.ok false, .error .unexpected, .ok true]).length = 3 := by
  have h := C7_oauth_batch_isolates_failures [.ok false, .error .unexpected, .ok true]
    (by simp)
  exact ⟨by rw [h.1]; rfl, h.2⟩

/-- C9 falls on the dashboard variant: a cancellation arriving during
the 24-hour keep-alive sleep escapes `perform_login_for_account`
entirely (the `except Exception` handler does not catch
`KeyboardInterrupt`), so the attempt raises instead of returning the
already-established success value. -/
theorem C9_dash_interrupt_discards_outcome :
    perform_login_for_account "U3" dashEnvCancel = .error .interrupted := by
  rfl

/-- C9 amended: the OAuth-variant keep-alive loop never raises — every
page-interaction failure is swallowed and the loop runs to its deadline;
a cancellation at iteration `t0` ends the loop at exactly `t0`, caught
by the interrupt handler; and the attempt outcome of
`perform_oauth_login` is unchanged by any keep-alive behaviour.  In the
dashboard variant, a cancellation during the keep-alive sleep instead
escapes the attempt (see the counterexample). -/
theorem C9_oauth_heartbeat_never_raises :
    (∀ (sf : Nat → Bool) (c : Option Nat) (fuel t : Nat), ∃ k,
      heartbeat_oauth sf c fuel t = .ok k) ∧
    (∀ (sf : Nat → Bool) (fuel t t0 : Nat), t ≤ t0 → t0 < t + fuel →
      heartbeat_oauth sf (some t0) fuel t = .ok t0) ∧
    (∀ (uid : String) (env : OauthEnv) (c : Option Nat) (sf : Nat → Bool),
      perform_oauth_login uid { env with hbCancel := c, hbScriptFails := sf } =
        perform_oauth_login uid env) := by
  refine ⟨?_, ?_, ?_⟩
  · intro sf c fuel
    induction fuel with
    | zero => exact fun t => ⟨t, rfl⟩
    | succ n ih =>
      intro t
      by_cases hc : c = some t
      · exact ⟨t, by simp [heartbeat_oauth, hc]⟩
      · obtain ⟨k, hk⟩ := ih (t + 1)
        exact ⟨k, by simp [heartbeat_oauth, hc, hk]⟩
  · intro sf fuel
    induction fuel with
    | zero =>
      intro t t0 hle hlt
      omega
    | succ n ih =>
      intro t t0 hle hlt
      by_cases hc : t0 = t
      · subst hc
        simp [heartbeat_oauth]
      · have : ¬ (some t0 = some t) := by simpa using fun h => hc h
        simp only [heartbeat_oauth, if_neg this]
        exact ih (t + 1) t0 (by omega) (by omega)
  · intro uid env c sf
    rfl

/-- C9 witness: with a failing page interaction at every iteration and a
cancellation at iteration 3, the OAuth heartbeat still returns normally,
at iteration 3; and the keep-alive parameters do not change a concrete
attempt outcome. -/
theorem C9_oauth_heartbeat_never_raises_witness :
    heartbeat_oauth (fun _ => true) (some 3) 10 0 = .ok 3 ∧
    perform_oauth_login "U1"
        { oauthEnvNoOtp with hbCancel := some 3, hbScriptFails := fun _ => true } =
      perform_oauth_login "U1" oauthEnvNoOtp := by
  have h := C9_oauth_heartbeat_never_raises
  exact ⟨h.2.1 (fun _ => true) 10 0 3 (by omega) (by omega),
    h.2.2 "U1" oauthEnvNoOtp (some 3) (fun _ => true)⟩

/-- Every attempt of the OAuth variant either fails, or succeeds with
the token stored (trace ending in the `saved` event, with the store call
having succeeded), or succeeds through the dashboard-detected branch. -/
theorem perform_oauth_login_cases (uid : String) (env : OauthEnv) :
    (perform_oauth_login uid env).1 = false ∨
    (∃ tok, perform_oauth_login uid env =
        (true, [.saved uid tok, .mail ("Kite token updated for " ++ uid)]) ∧
      env.store tok = .ok ()) ∨
    (env.dashboardMarkup = true ∧
      perform_oauth_login uid env = (true, [.shot ("logged_in_no_request_" ++ uid)])) := by
  unfold perform_oauth_login
  split
  · exact Or.inl rfl
  · split
    · exact Or.inl rfl
    · split
      · exact Or.inl rfl
      · split
        · exact Or.inl rfl
        · split
          · exact Or.inl rfl
          · split
            · split
              · rename_i hd
                exact Or.inr (Or.inr ⟨hd, rfl⟩)
              · exact Or.inl rfl
            · split
              · exact Or.inl rfl
              · exact Or.inl rfl
              · rename_i tok hex
                split
                · exact Or.inl rfl
                · rename_i u hstore
                  exact Or.inr (Or.inl ⟨tok, rfl, by rw [hstore]⟩)

/-- No-cancellation run of the dashboard keep-alive loop: completes all
iterations and returns. -/
theorem heartbeat_dash_no_cancel (sf : Nat → Bool) (fuel t : Nat) :
    heartbeat_dash sf none fuel t = .ok (t + fuel) := by
  induction fuel generalizing t with
  | zero => simp [heartbeat_dash]
  | succ n ih =>
    rw [heartbeat_dash]
    simp only [reduceCtorEq, if_false]
    rw [ih (t + 1)]
    congr 1
    omega

/-- The success path of the dashboard variant: when the driver builds,
the login form appears, an OTP field set is found, the OTP generates and
types without an exception, the redirect poll returns (with or without a
token), and no cancellation arrives during keep-alive, the attempt
returns `True` — with no store interaction recorded at all. -/
theorem perform_dash_success_path (uid : String) (env : DashEnv) (fields : List Input)
    (otp : List Char) (res : Option String × Option String × String)
    (h1 : env.buildOk = true) (h2 : env.loginFormOk = true)
    (h3 : find_otp_fields_dash env.pages otpFuel_dash 0 = some fields)
    (h4 : env.otpCode = some otp)
    (h5 : (enter_otp_into_fields otp fields).1 = true)
    (h6 : wait_for_request_token env.urls rtFuel 0 = .ok res)
    (h7 : env.hbCancel = none) :
    perform_login_for_account uid env = .ok (true, []) := by
  unfold perform_login_for_account
  rw [h1, h2, h3, h4]
  simp [h5, h6, h7, heartbeat_dash_no_cancel]

/-- C1 falls on `kite_dashboard_login.perform_login_for_account`: in an
environment where the URL never carries the request-token marker (so the
poll returns an empty artifact) the attempt still reports success, with
an empty side-effect trace — no token was exchanged, nothing was handed
to the token store, and no dashboard-detection probe exists in this
variant. -/
theorem C1_dash_success_without_token_or_store :
    wait_for_request_token dashEnvHappy.urls rtFuel 0 =
      .ok (none, none, "https://kite.zerodha.com/dashboard") ∧
    perform_login_for_account "U2" dashEnvHappy = .ok (true, []) := by
  have hw : wait_for_request_token dashEnvHappy.urls rtFuel 0 =
      .ok (none, none, "https://kite.zerodha.com/dashboard") := rfl
  exact ⟨hw, perform_dash_success_path "U2" dashEnvHappy [totpField]
    ['1', '2', '3', '4', '5', '6'] (none, none, "https://kite.zerodha.com/dashboard")
    rfl rfl rfl rfl rfl hw rfl⟩

/-- C1 amended: in the OAuth variant (`perform_oauth_login`) the claim
holds — the attempt reports success only if an access token obtained
from the exchange was successfully handed to the token store (the
`saved` event, with the store call succeeding) or the explicit
dashboard-reached-without-redirect case was detected; in particular a
store that raises after a successful exchange forces a failed outcome.
The dashboard variant instead reports success whenever the flow reaches
the redirect poll without an exception, with no exchange, store, or
dashboard detection involved (see the counterexample). -/
theorem C1_oauth_success_requires_stored_token_or_dashboard (uid : String) (env : OauthEnv) :
    ((perform_oauth_login uid env).1 = true →
      (∃ tok, Ev.saved uid tok ∈ (perform_oauth_login uid env).2 ∧
        env.store tok = .ok ()) ∨
      (env.dashboardMarkup = true ∧
        Ev.shot ("logged_in_no_request_" ++ uid) ∈ (perform_oauth_login uid env).2)) ∧
    ((∀ tok, env.store tok = .error ()) →
      (perform_oauth_login uid env).1 = true → env.dashboardMarkup = true) := by
  have key := perform_oauth_login_cases uid env
  constructor
  · intro h
    rcases key with hf | ⟨tok, heq, hst⟩ | ⟨hd, heq⟩
    · rw [hf] at h
      cases h
    · exact Or.inl ⟨tok, by rw [heq]; simp, hst⟩
    · exact Or.inr ⟨hd, by rw [heq]; simp⟩
  · intro hstf h
    rcases key with hf | ⟨tok, heq, hst⟩ | ⟨hd, heq⟩
    · rw [hf] at h
      cases h
    · rw [hstf tok] at hst
      cases hst
    · exact hd

/-- C1 witness: in an OAuth-variant environment whose token store always
raises, the flow reaches the store with the exchanged token `tok_xyz`
and the attempt outcome is `Failed`, not `Success`. -/
theorem C1_oauth_success_requires_stored_token_or_dashboard_witness :
    (∀ tok, oauthEnvStoreFails.store tok = .error ()) ∧
    ((perform_oauth_login "U1" oauthEnvStoreFails).1 = true →
      oauthEnvStoreFails.dashboardMarkup = true) ∧
    (perform_oauth_login "U1" oauthEnvStoreFails).1 = false := by
  refine ⟨fun tok => rfl,
    (C1_oauth_success_requires_stored_token_or_dashboard "U1" oauthEnvStoreFails).2
      (fun tok => rfl), ?_⟩
  rfl

end Zerodha
